import Mathlib

/-!
Shallow embedding of the document-portal backend (src/server.js and
src/unnamed/part_000): a stateless Express service with three endpoints
(POST /register, POST /login, GET /documents/:country/:type) over a
PostgreSQL datastore, with bcrypt password hashing.

The bcrypt library is modelled concretely: a hash string embeds its salt
followed by a separator and a digest of digit characters, `bcrypt.genSalt`
is parametrized by an external randomness string, and `bcrypt.compare`
re-extracts the embedded salt and re-derives the hash, exactly the way the
real primitive consults only the metadata embedded in the hash string.
The datastore is a list of user rows and a list of document rows; the two
parameterized queries and the INSERT are given their SQL semantics, and an
optional fault parameter injects an arbitrary thrown error in place of the
datastore call, to model connection and runtime failures.
-/

/-- Decimal digit character for `n % 10` (used to build digit-only digests). -/
def digitChar (n : Nat) : Char :=
  if n % 10 = 0 then '0'
  else if n % 10 = 1 then '1'
  else if n % 10 = 2 then '2'
  else if n % 10 = 3 then '3'
  else if n % 10 = 4 then '4'
  else if n % 10 = 5 then '5'
  else if n % 10 = 6 then '6'
  else if n % 10 = 7 then '7'
  else if n % 10 = 8 then '8'
  else '9'

/-- Decimal digit list of a natural number, fuel-structured so that it
reduces by evaluation. -/
def natDigitsAux : Nat → Nat → List Char
  | 0, _ => []
  | fuel + 1, n =>
    if n < 10 then [digitChar n]
    else natDigitsAux fuel (n / 10) ++ [digitChar (n % 10)]

/-- Decimal digit list of a natural number. -/
def natDigits (n : Nat) : List Char := natDigitsAux (n + 1) n

/-- Injective numeric code of a string (base is the number of Unicode
scalar values, so distinct character lists get distinct codes). -/
def strCode (s : String) : Nat :=
  s.data.foldl (fun a c => a * 1114112 + c.toNat + 1) 0

/-- Model of the bcrypt digest: a digit-only string derived from the
password and the salt. -/
def bcryptDigest (password salt : String) : String :=
  String.mk (natDigits (strCode password + 1114112 * strCode salt + 1))

/-- Model of `bcrypt.hash password salt`: the hash string embeds the salt,
a separator, and the digest, as the real primitive embeds its cost and
salt metadata in the hash output. -/
def bcryptHash (password salt : String) : String :=
  salt ++ "$" ++ bcryptDigest password salt

/-- Extract the salt metadata embedded in a hash string: everything before
the final separator. -/
def saltOfHash (h : String) : String :=
  String.mk (((h.data.reverse.dropWhile (fun c => c ≠ '$')).drop 1).reverse)

/-- Model of `bcrypt.compare password hash`: re-derive the hash from the
salt metadata embedded in the hash string and compare. -/
def bcryptCompare (password hash : String) : Bool :=
  hash == bcryptHash password (saltOfHash hash)

/-- Model of `bcrypt.genSalt rounds` where `rand` stands for the external
randomness: the produced salt records the cost factor. -/
def bcryptGenSalt (rounds : Nat) (rand : String) : String :=
  "$2b$" ++ String.mk (natDigits rounds) ++ "$" ++ rand

theorem digitChar_ne_dollar (n : Nat) : digitChar n ≠ '$' := by
  unfold digitChar
  repeat' split
  all_goals decide

theorem natDigitsAux_no_dollar (fuel n : Nat) : '$' ∉ natDigitsAux fuel n := by
  induction fuel generalizing n with
  | zero => simp [natDigitsAux]
  | succ fuel ih =>
    unfold natDigitsAux
    split
    · intro hmem
      simp only [List.mem_singleton] at hmem
      exact digitChar_ne_dollar n hmem.symm
    · intro hmem
      rcases List.mem_append.mp hmem with h | h
      · exact ih (n / 10) h
      · simp only [List.mem_singleton] at h
        exact digitChar_ne_dollar (n % 10) h.symm

theorem natDigits_no_dollar (n : Nat) : '$' ∉ natDigits n :=
  natDigitsAux_no_dollar (n + 1) n

theorem dropWhile_append_of_forall {p : Char → Bool} (l₁ l₂ : List Char)
    (h : ∀ c ∈ l₁, p c = true) :
    (l₁ ++ l₂).dropWhile p = l₂.dropWhile p := by
  induction l₁ with
  | nil => rfl
  | cons c l ih =>
    simp only [List.cons_append, List.dropWhile_cons]
    rw [h c (List.mem_cons_self c l)]
    simp only [if_true]
    exact ih (fun d hd => h d (List.mem_cons_of_mem c hd))

/-- The salt embedded by `bcryptHash` is recovered by `saltOfHash`. -/
theorem saltOfHash_bcryptHash (password salt : String) :
    saltOfHash (bcryptHash password salt) = salt := by
  unfold saltOfHash bcryptHash
  have hdata : (salt ++ "$" ++ bcryptDigest password salt).data
      = salt.data ++ '$' :: (bcryptDigest password salt).data := by
    simp [String.data_append]
  rw [hdata]
  have hrev : (salt.data ++ '$' :: (bcryptDigest password salt).data).reverse
      = (bcryptDigest password salt).data.reverse ++ '$' :: salt.data.reverse := by
    simp
  rw [hrev]
  have hforall : ∀ c ∈ (bcryptDigest password salt).data.reverse,
      (fun c => decide (c ≠ '$')) c = true := by
    intro c hc
    simp only [decide_eq_true_eq]
    intro hcd
    subst hcd
    exact natDigits_no_dollar _ (List.mem_reverse.mp hc)
  rw [dropWhile_append_of_forall _ _ hforall]
  simp

/-- `bcrypt.compare` succeeds on the hash of the same password: the
round-trip property of the primitive. -/
theorem bcryptCompare_bcryptHash (password salt : String) :
    bcryptCompare password (bcryptHash password salt) = true := by
  unfold bcryptCompare
  rw [saltOfHash_bcryptHash]
  simp

/-! ## Data model: the `users` and `document_details` tables -/

/-- A row of the `users` table: `id`, `email` (unique), `password_hash`,
`salt`. -/
structure UserRow where
  id : Nat
  email : String
  password_hash : String
  salt : String
deriving DecidableEq

/-- A row of the `document_details` table: keyed by `(country,
document_type)`, with arbitrary further document fields. -/
structure DocumentRow where
  country : String
  document_type : String
  fields : List (String × String)
deriving DecidableEq

/-- The datastore: the two tables plus the next id the datastore will
assign on insert. -/
structure Db where
  users : List UserRow
  docs : List DocumentRow
  nextId : Nat
deriving DecidableEq

/-- A thrown JavaScript error, as the handlers see it: an optional
PostgreSQL error code (`error.code`). -/
structure JsError where
  code : Option String
deriving DecidableEq

/-- `SELECT * FROM users WHERE email = $1`. -/
def dbSelectUser (db : Db) (email : String) : List UserRow :=
  db.users.filter (fun u => u.email == email)

/-- `SELECT * FROM document_details WHERE country = $1 AND document_type
= $2`. -/
def dbSelectDoc (db : Db) (country ty : String) : List DocumentRow :=
  db.docs.filter (fun d => d.country == country && d.document_type == ty)

/-- `INSERT INTO users (email, password_hash, salt) VALUES ($1, $2, $3)
RETURNING id`: the datastore enforces the email-uniqueness constraint,
surfacing error code 23505 on violation, and otherwise appends the row
and returns the assigned id. -/
def dbInsertUser (db : Db) (email hash salt : String) :
    Except JsError (Db × Nat) :=
  if db.users.any (fun u => u.email == email) then
    Except.error { code := some "23505" }
  else
    Except.ok
      ({ users := db.users ++
           [{ id := db.nextId, email := email, password_hash := hash,
              salt := salt }],
         docs := db.docs, nextId := db.nextId + 1 }, db.nextId)

/-! ## HTTP layer -/

/-- A JSON response body: a bare message, a message with a user id, or a
document record sent verbatim. -/
inductive Body where
  | msg (message : String)
  | msgUser (message : String) (userId : Nat)
  | doc (d : DocumentRow)
deriving DecidableEq

/-- An HTTP response: status code and JSON body. -/
structure Response where
  status : Nat
  body : Body
deriving DecidableEq

/-- The outcome of one handler invocation: the response sent, the
datastore state afterwards, and how many datastore calls were issued. -/
structure HandlerOut where
  response : Response
  db : Db
  queries : Nat
deriving DecidableEq

/-- JavaScript truthiness of a request-body field that may be absent:
absent and the empty string are falsy. -/
def truthy : Option String → Bool
  | none => false
  | some s => !s.isEmpty

/-- `const saltRounds = 10` (both files). -/
def saltRounds : Nat := 10

/-! ## Handlers of src/server.js

Each handler takes the request fields, an optional injected fault (an
arbitrary error thrown by the datastore call in place of its semantic
result), and for registration the randomness feeding `bcrypt.genSalt`. -/

namespace Server

/-- `app.post('/register')` of src/server.js. -/
def registerStep (db : Db) (email password : Option String)
    (fault : Option JsError) (rand : String) : HandlerOut :=
  if !truthy email || !truthy password then
    ⟨⟨400, Body.msg "Email and password are required."⟩, db, 0⟩
  else
    let salt := bcryptGenSalt saltRounds rand
    let passwordHash := bcryptHash (password.getD "") salt
    let outcome : Except JsError (Db × Nat) :=
      match fault with
      | some e => Except.error e
      | none => dbInsertUser db (email.getD "") passwordHash salt
    match outcome with
    | Except.ok (db2, uid) =>
      ⟨⟨201, Body.msgUser "User registered successfully!" uid⟩, db2, 1⟩
    | Except.error e =>
      if e.code == some "23505" then
        ⟨⟨409, Body.msg "Email already exists. Please use a different email."⟩,
          db, 1⟩
      else
        ⟨⟨500, Body.msg "Internal server error during registration."⟩, db, 1⟩

/-- `app.post('/login')` of src/server.js. -/
def loginStep (db : Db) (email password : Option String)
    (fault : Option JsError) : HandlerOut :=
  if !truthy email || !truthy password then
    ⟨⟨400, Body.msg "Email and password are required."⟩, db, 0⟩
  else
    match fault with
    | some _ => ⟨⟨500, Body.msg "Internal server error during login."⟩, db, 1⟩
    | none =>
      match (dbSelectUser db (email.getD "")).head? with
      | none => ⟨⟨401, Body.msg "Invalid email or password."⟩, db, 1⟩
      | some user =>
        if bcryptCompare (password.getD "") user.password_hash then
          ⟨⟨200, Body.msg "Login successful!"⟩, db, 1⟩
        else
          ⟨⟨401, Body.msg "Invalid email or password."⟩, db, 1⟩

/-- `app.get('/documents/:country/:type')` of src/server.js. -/
def documentsStep (db : Db) (country ty : String)
    (fault : Option JsError) : HandlerOut :=
  match fault with
  | some _ =>
    ⟨⟨500, Body.msg "Internal server error fetching document details."⟩, db, 1⟩
  | none =>
    match (dbSelectDoc db country ty).head? with
    | some document => ⟨⟨200, Body.doc document⟩, db, 1⟩
    | none =>
      ⟨⟨404, Body.msg "Document not found for the specified country and type."⟩,
        db, 1⟩

end Server

/-! ## Handlers of src/unnamed/part_000

Identical to src/server.js except for the 409 duplicate-email message. -/

namespace Part0

/-- `app.post('/register')` of src/unnamed/part_000. -/
def registerStep (db : Db) (email password : Option String)
    (fault : Option JsError) (rand : String) : HandlerOut :=
  if !truthy email || !truthy password then
    ⟨⟨400, Body.msg "Email and password are required."⟩, db, 0⟩
  else
    let salt := bcryptGenSalt saltRounds rand
    let passwordHash := bcryptHash (password.getD "") salt
    let outcome : Except JsError (Db × Nat) :=
      match fault with
      | some e => Except.error e
      | none => dbInsertUser db (email.getD "") passwordHash salt
    match outcome with
    | Except.ok (db2, uid) =>
      ⟨⟨201, Body.msgUser "User registered successfully!" uid⟩, db2, 1⟩
    | Except.error e =>
      if e.code == some "23505" then
        ⟨⟨409, Body.msg "Email already exists."⟩, db, 1⟩
      else
        ⟨⟨500, Body.msg "Internal server error during registration."⟩, db, 1⟩

/-- `app.post('/login')` of src/unnamed/part_000. -/
def loginStep (db : Db) (email password : Option String)
    (fault : Option JsError) : HandlerOut :=
  if !truthy email || !truthy password then
    ⟨⟨400, Body.msg "Email and password are required."⟩, db, 0⟩
  else
    match fault with
    | some _ => ⟨⟨500, Body.msg "Internal server error during login."⟩, db, 1⟩
    | none =>
      match (dbSelectUser db (email.getD "")).head? with
      | none => ⟨⟨401, Body.msg "Invalid email or password."⟩, db, 1⟩
      | some user =>
        if bcryptCompare (password.getD "") user.password_hash then
          ⟨⟨200, Body.msg "Login successful!"⟩, db, 1⟩
        else
          ⟨⟨401, Body.msg "Invalid email or password."⟩, db, 1⟩

/-- `app.get('/documents/:country/:type')` of src/unnamed/part_000. -/
def documentsStep (db : Db) (country ty : String)
    (fault : Option JsError) : HandlerOut :=
  match fault with
  | some _ =>
    ⟨⟨500, Body.msg "Internal server error fetching document details."⟩, db, 1⟩
  | none =>
    match (dbSelectDoc db country ty).head? with
    | some document => ⟨⟨200, Body.doc document⟩, db, 1⟩
    | none =>
      ⟨⟨404, Body.msg "Document not found for the specified country and type."⟩,
        db, 1⟩

end Part0

/-! ## Request sequences -/

/-- One incoming request to any of the three endpoints, with its injected
datastore fault and, for registration, the salt randomness. -/
inductive Request where
  | register (email password : Option String) (fault : Option JsError)
      (rand : String)
  | login (email password : Option String) (fault : Option JsError)
  | documents (country ty : String) (fault : Option JsError)
deriving DecidableEq

/-- Dispatch one request to its handler (src/server.js semantics). -/
def step (db : Db) : Request → HandlerOut
  | Request.register email password fault rand =>
    Server.registerStep db email password fault rand
  | Request.login email password fault =>
    Server.loginStep db email password fault
  | Request.documents country ty fault =>
    Server.documentsStep db country ty fault

/-- Run a sequence of requests, threading the datastore state. -/
def run (db : Db) (reqs : List Request) : Db :=
  reqs.foldl (fun d r => (step d r).db) db

/-! ## Claims -/

/-- C2: for every register or login request in which email or password is
missing or empty (falsy), the handler of either file returns HTTP 400 with
message "Email and password are required.", the datastore state is
unchanged, and zero datastore calls are issued. -/
theorem C2_missing_fields_rejected (db : Db) (e p : Option String)
    (fault : Option JsError) (rand : String)
    (h : truthy e = false ∨ truthy p = false) :
    Server.registerStep db e p fault rand
      = ⟨⟨400, Body.msg "Email and password are required."⟩, db, 0⟩
    ∧ Server.loginStep db e p fault
      = ⟨⟨400, Body.msg "Email and password are required."⟩, db, 0⟩
    ∧ Part0.registerStep db e p fault rand
      = ⟨⟨400, Body.msg "Email and password are required."⟩, db, 0⟩
    ∧ Part0.loginStep db e p fault
      = ⟨⟨400, Body.msg "Email and password are required."⟩, db, 0⟩ := by
  rcases h with h | h <;>
    simp [Server.registerStep, Server.loginStep, Part0.registerStep,
      Part0.loginStep, h]

/-- Witness for C2 at a concrete input: login with an empty password. -/
theorem C2_missing_fields_rejected_witness :
    Server.loginStep ⟨[], [], 0⟩ (some "a@x.com") (some "") none
      = ⟨⟨400, Body.msg "Email and password are required."⟩, ⟨[], [], 0⟩, 0⟩ :=
  (C2_missing_fields_rejected ⟨[], [], 0⟩ (some "a@x.com") (some "") none "r"
    (Or.inr rfl)).2.1

/-- C8: for every document-lookup request, zero matching rows yield HTTP
404 with the fixed message, and one or more matching rows yield HTTP 200
whose body is exactly the first returned row. -/
theorem C8_document_lookup (db : Db) (country ty : String) :
    (dbSelectDoc db country ty = [] →
      (Server.documentsStep db country ty none).response
        = ⟨404,
            Body.msg "Document not found for the specified country and type."⟩)
    ∧ ∀ d rest, dbSelectDoc db country ty = d :: rest →
        (Server.documentsStep db country ty none).response
          = ⟨200, Body.doc d⟩ := by
  constructor
  · intro h
    simp [Server.documentsStep, h]
  · intro d rest h
    simp [Server.documentsStep, h]

/-- Witness for C8 at a concrete input: empty table, GET
/documents/US/passport yields 404. -/
theorem C8_document_lookup_witness :
    (Server.documentsStep ⟨[], [], 0⟩ "US" "passport" none).response
      = ⟨404,
          Body.msg "Document not found for the specified country and type."⟩ :=
  (C8_document_lookup ⟨[], [], 0⟩ "US" "passport").1 rfl

/-- C7: every injected datastore failure is caught by the handler and
mapped to a defined status (register: 400, 409 or 500; login: 400 or 500;
documents: 500), and every 500 body is the fixed generic message carrying
no detail of the thrown error. -/
theorem C7_faults_mapped (db : Db) (e p : Option String) (err : JsError)
    (rand country ty : String) :
    ((Server.registerStep db e p (some err) rand).response.status = 400
      ∨ (Server.registerStep db e p (some err) rand).response.status = 409
      ∨ (Server.registerStep db e p (some err) rand).response.status = 500)
    ∧ ((Server.registerStep db e p (some err) rand).response.status = 500 →
        (Server.registerStep db e p (some err) rand).response.body
          = Body.msg "Internal server error during registration.")
    ∧ ((Server.loginStep db e p (some err)).response.status = 400
      ∨ (Server.loginStep db e p (some err)).response.status = 500)
    ∧ ((Server.loginStep db e p (some err)).response.status = 500 →
        (Server.loginStep db e p (some err)).response.body
          = Body.msg "Internal server error during login.")
    ∧ (Server.documentsStep db country ty (some err)).response
        = ⟨500, Body.msg "Internal server error fetching document details."⟩ := by
  have hreg :
      (Server.registerStep db e p (some err) rand).response
        = ⟨400, Body.msg "Email and password are required."⟩
      ∨ (Server.registerStep db e p (some err) rand).response
        = ⟨409, Body.msg "Email already exists. Please use a different email."⟩
      ∨ (Server.registerStep db e p (some err) rand).response
        = ⟨500, Body.msg "Internal server error during registration."⟩ := by
    by_cases hv : (!truthy e || !truthy p) = true
    · exact Or.inl (by simp [Server.registerStep, hv])
    · cases hc : (err.code == some "23505") with
      | true => exact Or.inr (Or.inl (by simp [Server.registerStep, hv, hc]))
      | false => exact Or.inr (Or.inr (by simp [Server.registerStep, hv, hc]))
  have hlog :
      (Server.loginStep db e p (some err)).response
        = ⟨400, Body.msg "Email and password are required."⟩
      ∨ (Server.loginStep db e p (some err)).response
        = ⟨500, Body.msg "Internal server error during login."⟩ := by
    by_cases hv : (!truthy e || !truthy p) = true
    · exact Or.inl (by simp [Server.loginStep, hv])
    · exact Or.inr (by simp [Server.loginStep, hv])
  refine ⟨?_, ?_, ?_, ?_, rfl⟩
  · rcases hreg with h | h | h <;> rw [h] <;> simp
  · intro hs
    rcases hreg with h | h | h
    · rw [h] at hs; simp at hs
    · rw [h] at hs; simp at hs
    · rw [h]
  · rcases hlog with h | h <;> (rw [h]; simp)
  · intro hs
    rcases hlog with h | h
    · rw [h] at hs; simp at hs
    · rw [h]

/-- Witness for C7 at a concrete input: a faulted document lookup yields
the generic 500. -/
theorem C7_faults_mapped_witness :
    (Server.documentsStep ⟨[], [], 0⟩ "US" "passport" (some ⟨none⟩)).response
      = ⟨500, Body.msg "Internal server error fetching document details."⟩ :=
  (C7_faults_mapped ⟨[], [], 0⟩ (some "a@x.com") (some "secret") ⟨none⟩
    "r" "US" "passport").2.2.2.2

/-- C1: for every login request with non-empty email and password, the
user-not-found response and the password-mismatch response are identical:
both are HTTP 401 with the byte-identical body message "Invalid email or
password.". -/
theorem C1_login_indistinguishable (db1 db2 : Db)
    (e1 p1 e2 p2 : Option String) (u : UserRow)
    (he1 : truthy e1 = true) (hp1 : truthy p1 = true)
    (he2 : truthy e2 = true) (hp2 : truthy p2 = true)
    (hnone : dbSelectUser db1 (e1.getD "") = [])
    (hfound : (dbSelectUser db2 (e2.getD "")).head? = some u)
    (hmismatch : bcryptCompare (p2.getD "") u.password_hash = false) :
    (Server.loginStep db1 e1 p1 none).response
      = (Server.loginStep db2 e2 p2 none).response
    ∧ (Server.loginStep db1 e1 p1 none).response
      = ⟨401, Body.msg "Invalid email or password."⟩ := by
  have h1 : (Server.loginStep db1 e1 p1 none).response
      = ⟨401, Body.msg "Invalid email or password."⟩ := by
    simp [Server.loginStep, he1, hp1, hnone]
  have h2 : (Server.loginStep db2 e2 p2 none).response
      = ⟨401, Body.msg "Invalid email or password."⟩ := by
    simp [Server.loginStep, he2, hp2, hfound, hmismatch]
  exact ⟨h1.trans h2.symm, h1⟩

/-- Witness for C1 at concrete inputs: an unknown email against an empty
table versus a wrong password against a stored user. -/
theorem C1_login_indistinguishable_witness :
    (Server.loginStep ⟨[], [], 0⟩ (some "a@x.com") (some "secret")
        none).response
      = (Server.loginStep
          ⟨[⟨0, "a@x.com", bcryptHash "secret" "s", "s"⟩], [], 1⟩
          (some "a@x.com") (some "wrong") none).response
    ∧ (Server.loginStep ⟨[], [], 0⟩ (some "a@x.com") (some "secret")
        none).response
      = ⟨401, Body.msg "Invalid email or password."⟩ :=
  C1_login_indistinguishable ⟨[], [], 0⟩
    ⟨[⟨0, "a@x.com", bcryptHash "secret" "s", "s"⟩], [], 1⟩
    (some "a@x.com") (some "secret") (some "a@x.com") (some "wrong")
    ⟨0, "a@x.com", bcryptHash "secret" "s", "s"⟩
    rfl rfl rfl rfl rfl (by decide) (by decide)

/-- C3: for every non-empty email and password, if registration succeeds
(the email is fresh and the insert does not fail), the response is HTTP
201 carrying the datastore-assigned id, and a subsequent login with the
same email and the original plaintext password returns HTTP 200. -/
theorem C3_register_then_login (db : Db) (e p : Option String)
    (rand : String)
    (he : truthy e = true) (hp : truthy p = true)
    (hfresh : db.users.any (fun u => u.email == e.getD "") = false) :
    (Server.registerStep db e p none rand).response
      = ⟨201, Body.msgUser "User registered successfully!" db.nextId⟩
    ∧ (Server.loginStep (Server.registerStep db e p none rand).db
        e p none).response
      = ⟨200, Body.msg "Login successful!"⟩ := by
  have hreg : Server.registerStep db e p none rand
      = ⟨⟨201, Body.msgUser "User registered successfully!" db.nextId⟩,
         ⟨db.users ++
            [⟨db.nextId, e.getD "",
              bcryptHash (p.getD "") (bcryptGenSalt saltRounds rand),
              bcryptGenSalt saltRounds rand⟩],
          db.docs, db.nextId + 1⟩, 1⟩ := by
    simp [Server.registerStep, he, hp, dbInsertUser, hfresh]
  have hfil : db.users.filter (fun u => u.email == e.getD "") = [] :=
    List.filter_eq_nil_iff.mpr (List.any_eq_false.mp hfresh)
  refine ⟨by rw [hreg], ?_⟩
  rw [hreg]
  simp [Server.loginStep, he, hp, dbSelectUser, hfil,
    bcryptCompare_bcryptHash]

/-- Witness for C3 at a concrete input: register then login with the same
credentials on an empty table. -/
theorem C3_register_then_login_witness :
    (Server.registerStep ⟨[], [], 0⟩ (some "a@x.com") (some "secret")
        none "r").response
      = ⟨201, Body.msgUser "User registered successfully!" 0⟩
    ∧ (Server.loginStep
        (Server.registerStep ⟨[], [], 0⟩ (some "a@x.com") (some "secret")
          none "r").db
        (some "a@x.com") (some "secret") none).response
      = ⟨200, Body.msg "Login successful!"⟩ :=
  C3_register_then_login ⟨[], [], 0⟩ (some "a@x.com") (some "secret") "r"
    rfl rfl rfl

/-- C4 counterexample: in src/server.js the duplicate-email 409 body is
"Email already exists. Please use a different email.", not the claimed
"Email already exists.". -/
theorem C4_counterexample :
    ¬ (Server.registerStep ⟨[], [], 0⟩ (some "a@x.com") (some "secret")
        (some ⟨some "23505"⟩) "r").response
      = ⟨409, Body.msg "Email already exists."⟩ := by
  decide

/-- C4 (amended): an insert failure with error code 23505 yields HTTP 409
with the duplicate-email message of the respective file ("Email already
exists. Please use a different email." in src/server.js, "Email already
exists." in src/unnamed/part_000), the datastore is unchanged, and an
insert failure with any other code yields HTTP 500. -/
theorem C4_duplicate_email_conflict (db : Db) (e p : Option String)
    (err : JsError) (rand : String)
    (he : truthy e = true) (hp : truthy p = true) :
    (err.code = some "23505" →
      Server.registerStep db e p (some err) rand
        = ⟨⟨409,
            Body.msg "Email already exists. Please use a different email."⟩,
           db, 1⟩
      ∧ Part0.registerStep db e p (some err) rand
        = ⟨⟨409, Body.msg "Email already exists."⟩, db, 1⟩)
    ∧ (err.code ≠ some "23505" →
      Server.registerStep db e p (some err) rand
        = ⟨⟨500, Body.msg "Internal server error during registration."⟩,
           db, 1⟩
      ∧ Part0.registerStep db e p (some err) rand
        = ⟨⟨500, Body.msg "Internal server error during registration."⟩,
           db, 1⟩) := by
  constructor
  · intro hc
    constructor <;>
      simp [Server.registerStep, Part0.registerStep, he, hp, hc]
  · intro hc
    constructor <;>
      simp [Server.registerStep, Part0.registerStep, he, hp, hc]

/-- Witness for C4 at a concrete input: error code 23505 yields the two
files' respective 409 responses. -/
theorem C4_duplicate_email_conflict_witness :
    Server.registerStep ⟨[], [], 0⟩ (some "a@x.com") (some "secret")
        (some ⟨some "23505"⟩) "r"
      = ⟨⟨409,
          Body.msg "Email already exists. Please use a different email."⟩,
         ⟨[], [], 0⟩, 1⟩ :=
  ((C4_duplicate_email_conflict ⟨[], [], 0⟩ (some "a@x.com")
    (some "secret") ⟨some "23505"⟩ "r" rfl rfl).1 rfl).1

/-- C10: the handlers of src/server.js and src/unnamed/part_000 are
equivalent: statuses always agree, the login and document-lookup handlers
agree on everything, and the register handlers agree on all responses
except in the 409 case, where the bodies carry the two files' respective
duplicate-email messages. -/
theorem C10_two_files_equivalent (db : Db) (e p : Option String)
    (fault : Option JsError) (rand country ty : String) :
    (Server.registerStep db e p fault rand).response.status
      = (Part0.registerStep db e p fault rand).response.status
    ∧ Server.loginStep db e p fault = Part0.loginStep db e p fault
    ∧ Server.documentsStep db country ty fault
      = Part0.documentsStep db country ty fault
    ∧ ((Server.registerStep db e p fault rand).response
        = (Part0.registerStep db e p fault rand).response
      ∨ ((Server.registerStep db e p fault rand).response
          = ⟨409,
              Body.msg "Email already exists. Please use a different email."⟩
        ∧ (Part0.registerStep db e p fault rand).response
          = ⟨409, Body.msg "Email already exists."⟩)) := by
  have key : (Server.registerStep db e p fault rand).response
        = (Part0.registerStep db e p fault rand).response
      ∨ ((Server.registerStep db e p fault rand).response
          = ⟨409,
              Body.msg "Email already exists. Please use a different email."⟩
        ∧ (Part0.registerStep db e p fault rand).response
          = ⟨409, Body.msg "Email already exists."⟩) := by
    by_cases hv : (!truthy e || !truthy p) = true
    · exact Or.inl (by simp [Server.registerStep, Part0.registerStep, hv])
    · cases fault with
      | some err =>
        cases hc : (err.code == some "23505") with
        | true =>
          exact Or.inr ⟨by simp [Server.registerStep, hv, hc],
            by simp [Part0.registerStep, hv, hc]⟩
        | false =>
          exact Or.inl
            (by simp [Server.registerStep, Part0.registerStep, hv, hc])
      | none =>
        by_cases hdup : db.users.any (fun u => u.email == e.getD "") = true
        · exact Or.inr
            ⟨by simp [Server.registerStep, hv, dbInsertUser, hdup],
             by simp [Part0.registerStep, hv, dbInsertUser, hdup]⟩
        · exact Or.inl (by
            simp [Server.registerStep, Part0.registerStep, hv, dbInsertUser,
              hdup])
  refine ⟨?_, rfl, rfl, key⟩
  rcases key with h | ⟨h1, h2⟩
  · rw [h]
  · rw [h1, h2]

/-- The datastore with every stored salt column rewritten by `f`; the rest
of each user row is unchanged. -/
def mapSalt (f : UserRow → String) (db : Db) : Db :=
  { db with users := db.users.map (fun u => { u with salt := f u }) }

/-- C6: login reads only the stored password_hash: its response is
invariant under arbitrarily rewriting the salt column of every user row,
and the comparison routine is exactly re-derivation of the hash from the
salt metadata embedded in the hash string. -/
theorem C6_salt_column_unused (db : Db) (f : UserRow → String)
    (e p : Option String) (fault : Option JsError) :
    (Server.loginStep (mapSalt f db) e p fault).response
      = (Server.loginStep db e p fault).response
    ∧ ∀ pw h, bcryptCompare pw h = (h == bcryptHash pw (saltOfHash h)) := by
  refine ⟨?_, fun pw h => rfl⟩
  by_cases hv : (!truthy e || !truthy p) = true
  · simp [Server.loginStep, hv]
  · cases fault with
    | some err => simp [Server.loginStep, hv]
    | none =>
      have hsel : dbSelectUser (mapSalt f db) (e.getD "")
          = (dbSelectUser db (e.getD "")).map
              (fun u => { u with salt := f u }) := by
        unfold dbSelectUser mapSalt
        rw [List.filter_map]
        rfl
      simp only [Server.loginStep, hv, Bool.false_eq_true, if_false, hsel,
        List.head?_map]
      cases hh : (dbSelectUser db (e.getD "")).head? with
      | none => rfl
      | some u => cases hcmp : bcryptCompare (p.getD "") u.password_hash <;>
          simp [hcmp]

/-- Each single request extends the users table by a (possibly empty)
suffix: no existing row is updated or deleted. -/
theorem step_users_extend (db : Db) (r : Request) :
    ∃ tail, (step db r).db.users = db.users ++ tail := by
  cases r with
  | register e p fault rand =>
    simp only [step]
    by_cases hv : (!truthy e || !truthy p) = true
    · exact ⟨[], by simp [Server.registerStep, hv]⟩
    · cases fault with
      | some err =>
        cases hc : (err.code == some "23505") with
        | true => exact ⟨[], by simp [Server.registerStep, hv, hc]⟩
        | false => exact ⟨[], by simp [Server.registerStep, hv, hc]⟩
      | none =>
        by_cases hdup : db.users.any (fun u => u.email == e.getD "") = true
        · exact ⟨[], by simp [Server.registerStep, hv, dbInsertUser, hdup]⟩
        · exact ⟨[⟨db.nextId, e.getD "",
              bcryptHash (p.getD "") (bcryptGenSalt saltRounds rand),
              bcryptGenSalt saltRounds rand⟩],
            by simp [Server.registerStep, hv, dbInsertUser, hdup]⟩
  | login e p fault =>
    refine ⟨[], ?_⟩
    simp only [step, Server.loginStep]
    repeat' split
    all_goals simp
  | documents country ty fault =>
    refine ⟨[], ?_⟩
    simp only [step, Server.documentsStep]
    repeat' split
    all_goals simp

/-- C9: over every sequence of requests the users table only ever grows
by appended rows (the single INSERT of registration); rows once created
are never updated or deleted, and login and document lookup leave the
datastore unchanged. -/
theorem C9_users_append_only (db : Db) (reqs : List Request) :
    (∃ tail, (run db reqs).users = db.users ++ tail)
    ∧ (∀ e p fault, (Server.loginStep db e p fault).db = db)
    ∧ (∀ country ty fault,
        (Server.documentsStep db country ty fault).db = db) := by
  refine ⟨?_, ?_, ?_⟩
  · induction reqs generalizing db with
    | nil => exact ⟨[], by simp [run]⟩
    | cons r rs ih =>
      obtain ⟨t1, h1⟩ := step_users_extend db r
      obtain ⟨t2, h2⟩ := ih (step db r).db
      refine ⟨t1 ++ t2, ?_⟩
      have hrun : run db (r :: rs) = run (step db r).db rs := by
        simp [run]
      rw [hrun, h2, h1, List.append_assoc]
  · intro e p fault
    simp only [Server.loginStep]
    repeat' split
    all_goals rfl
  · intro country ty fault
    simp only [Server.documentsStep]
    repeat' split
    all_goals rfl

/-! ## The hash field never holds the plaintext password -/

theorem natDigitsAux_length (fuel : Nat) : ∀ n k, n < fuel → 10 ^ k ≤ n →
    k < (natDigitsAux fuel n).length := by
  induction fuel with
  | zero => intro n k hn _; exact absurd hn (Nat.not_lt_zero n)
  | succ fuel ih =>
    intro n k hn hk
    unfold natDigitsAux
    split
    case isTrue h =>
      have hk0 : k = 0 := by
        by_contra hne
        have h1 : 1 ≤ k := Nat.one_le_iff_ne_zero.mpr hne
        have h10 : 10 ^ 1 ≤ 10 ^ k := Nat.pow_le_pow_right (by norm_num) h1
        rw [pow_one] at h10
        omega
      subst hk0
      simp
    case isFalse h =>
      push_neg at h
      simp only [List.length_append, List.length_cons, List.length_nil]
      cases k with
      | zero => omega
      | succ s =>
        have hdiv10 : n / 10 < n := Nat.div_lt_self (by omega) (by norm_num)
        have hdiv : n / 10 < fuel := by omega
        have hpow : 10 ^ s ≤ n / 10 := by
          rw [Nat.le_div_iff_mul_le (by norm_num)]
          calc 10 ^ s * 10 = 10 ^ (s + 1) := (pow_succ 10 s).symm
            _ ≤ n := hk
        have := ih (n / 10) s hdiv hpow
        omega

theorem foldl_code_lower (l : List Char) : ∀ a : Nat,
    a * 1114112 ^ l.length
      ≤ l.foldl (fun a c => a * 1114112 + c.toNat + 1) a := by
  induction l with
  | nil => intro a; simp
  | cons c tl ih =>
    intro a
    simp only [List.foldl_cons, List.length_cons]
    calc a * 1114112 ^ (tl.length + 1)
        = (a * 1114112) * 1114112 ^ tl.length := by ring
      _ ≤ (a * 1114112 + c.toNat + 1) * 1114112 ^ tl.length :=
          Nat.mul_le_mul_right _ (by omega)
      _ ≤ tl.foldl (fun a c => a * 1114112 + c.toNat + 1)
            (a * 1114112 + c.toNat + 1) := ih _

theorem strCode_lower (s : String) (hs : s.data ≠ []) :
    10 ^ (s.data.length - 1) ≤ strCode s := by
  unfold strCode
  cases hd : s.data with
  | nil => exact absurd hd hs
  | cons c tl =>
    simp only [List.foldl_cons, List.length_cons, Nat.add_sub_cancel]
    have h1 := foldl_code_lower tl (0 * 1114112 + c.toNat + 1)
    have hp : (10 : Nat) ^ tl.length ≤ 1114112 ^ tl.length :=
      Nat.pow_le_pow_left (by norm_num) _
    have h2 : 1114112 ^ tl.length
        ≤ (0 * 1114112 + c.toNat + 1) * 1114112 ^ tl.length :=
      Nat.le_mul_of_pos_left _ (by omega)
    omega

theorem bcryptDigest_length (password salt : String)
    (hp : password.data ≠ []) :
    password.data.length ≤ (bcryptDigest password salt).data.length := by
  show password.data.length
      ≤ (natDigits
          (strCode password + 1114112 * strCode salt + 1)).length
  have hL1 : 1 ≤ password.data.length := by
    cases hd : password.data with
    | nil => exact absurd hd hp
    | cons c tl => simp [hd]
  have h1 : 10 ^ (password.data.length - 1) ≤ strCode password :=
    strCode_lower password hp
  have h2 : 10 ^ (password.data.length - 1)
      ≤ strCode password + 1114112 * strCode salt + 1 := by omega
  have h3 := natDigitsAux_length
    (strCode password + 1114112 * strCode salt + 1 + 1)
    (strCode password + 1114112 * strCode salt + 1)
    (password.data.length - 1) (Nat.lt_succ_self _) h2
  unfold natDigits
  omega

theorem bcryptHash_data (password salt : String) :
    (bcryptHash password salt).data
      = salt.data ++ '$' :: (bcryptDigest password salt).data := by
  simp [bcryptHash]

/-- The hash string is strictly longer than the password, so the
plaintext password is never the stored hash value. -/
theorem bcryptHash_ne_password (password salt : String)
    (hp : password.data ≠ []) :
    bcryptHash password salt ≠ password := by
  intro h
  have hlen : (bcryptHash password salt).data.length
      = password.data.length := by rw [h]
  rw [bcryptHash_data] at hlen
  simp only [List.length_append, List.length_cons] at hlen
  have hd := bcryptDigest_length password salt hp
  omega

/-- A truthy optional string is a non-empty string. -/
theorem truthy_data_ne_nil (p : Option String)
    (hp : truthy p = true) : (p.getD "").data ≠ [] := by
  cases p with
  | none => simp [truthy] at hp
  | some s =>
    simp only [truthy, Bool.not_eq_true'] at hp
    have hne : s ≠ "" := fun h => by
      rw [h] at hp
      exact absurd hp (by decide)
    intro hd
    apply hne
    cases s with
    | mk l =>
      simp only [Option.getD_some] at hd
      exact congrArg String.mk hd

/-- C5: a successful registration stores exactly the supplied email, the
bcrypt hash of the plaintext password under a freshly generated salt at
cost factor 10, and that salt; the plaintext password is not what is
stored in the hash field. -/
theorem C5_stored_row (db : Db) (e p : Option String) (rand : String)
    (he : truthy e = true) (hp : truthy p = true)
    (hfresh : db.users.any (fun u => u.email == e.getD "") = false) :
    (Server.registerStep db e p none rand).db.users
      = db.users ++
        [{ id := db.nextId, email := e.getD "",
           password_hash :=
             bcryptHash (p.getD "") (bcryptGenSalt 10 rand),
           salt := bcryptGenSalt 10 rand }]
    ∧ bcryptHash (p.getD "") (bcryptGenSalt 10 rand) ≠ p.getD "" := by
  constructor
  · simp [Server.registerStep, he, hp, dbInsertUser, hfresh, saltRounds]
  · exact bcryptHash_ne_password _ _ (truthy_data_ne_nil p hp)

/-- Witness for C5 at a concrete input: registering on an empty table
stores the hash row, and the hash differs from the plaintext. -/
theorem C5_stored_row_witness :
    (Server.registerStep ⟨[], [], 0⟩ (some "a@x.com") (some "secret")
        none "r").db.users
      = [] ++
        [{ id := 0, email := "a@x.com",
           password_hash := bcryptHash "secret" (bcryptGenSalt 10 "r"),
           salt := bcryptGenSalt 10 "r" }]
    ∧ bcryptHash "secret" (bcryptGenSalt 10 "r") ≠ "secret" :=
  C5_stored_row ⟨[], [], 0⟩ (some "a@x.com") (some "secret") "r"
    rfl rfl rfl
